import Mathlib

set_option maxHeartbeats 1000000

/-!
Shallow embedding of the validation-configuration assembly and table-matching
core of `data_validation/__main__.py` (professional-services-data-validator).

Python dicts are embedded as ordered association lists (`List (String × α)`)
with insertion-order-preserving update, matching CPython dict semantics.
External collaborators that the module calls but that live outside the
embedded file (connection resolution, client acquisition, the execution
engine, schema introspection) are passed in as explicit function parameters.
Python exceptions are embedded as an explicit error type `DVError` and
fallible operations return `Except DVError _`.
-/

/-- Resolved connection descriptor (`cli_tools.get_connection` result): an
opaque, immutable bundle identifying how to reach a data system.  Modelled by
its resolved identity. -/
structure ConnectionDescriptor where
  config : String
  deriving DecidableEq, Repr

/-- One table inside a catalog: the `{schema_name, table_name}` object built by
`_get_all_tables_from_client` and consumed as a `table_obj`. -/
structure TableDescriptor where
  schema_name : String
  table_name : String
  deriving DecidableEq, Repr

/-- The table-pair object assembled by `_compare_match_tables`: fields
`schema_name`, `table_name`, `target_schema_name`, `target_table_name`. -/
structure TableMatchConfig where
  schema_name : String
  table_name : String
  target_schema_name : String
  target_table_name : String
  deriving DecidableEq, Repr

/-- Name and declared type of one column of the source table (type information
is supplied to the assembler by its caller). -/
structure ColumnInfo where
  name : String
  col_type : String
  deriving DecidableEq, Repr

/-- One aggregate specification: the metric kind (`count`, `sum`, ...) and the
column it ranges over (`none` = whole-table). -/
structure AggregateSpec where
  agg_type : String
  column : Option String
  deriving DecidableEq, Repr

/-- Embedded error type for the Python exceptions the module can raise.
A missing key in the YAML document dict surfaces in Python as a `KeyError`;
in the error taxonomy of this core that case is the serialization error
(document missing a required key), kept distinct from a `keyError` raised by
an ordinary dict lookup elsewhere, from the `IndexError` of indexing an empty
list, from connection-resolution failure, and from the `ValueError` raised on
an unsupported sub-command. -/
inductive DVError where
  | serializationError (missing_key : String) : DVError
  | keyError (key : String) : DVError
  | indexError (index : Nat) : DVError
  | connectionError (msg : String) : DVError
  | valueError (msg : String) : DVError
  deriving DecidableEq, Repr

/-- Lookup in an ordered association list (Python `d[k]` / `k in d`). -/
def lookupDict {α : Type} (m : List (String × α)) (k : String) : Option α :=
  match m with
  | [] => none
  | p :: rest => if p.1 = k then some p.2 else lookupDict rest k

/-- Python dict assignment `d[k] = v`: overwrites in place when the key is
present (preserving its position), appends otherwise. -/
def dictInsert {α : Type} (m : List (String × α)) (k : String) (v : α) : List (String × α) :=
  if (lookupDict m k).isSome then
    m.map (fun p => if p.1 = k then (k, v) else p)
  else
    m ++ [(k, v)]

/-- A catalog-side client: `list_databases()` and `list_tables(database)`. -/
structure CatalogClient where
  list_databases : List String
  list_tables : String → List String

/-- `_get_all_tables_from_client`: for every database visible to the client and
every table within it, store `{schema_name: db, table_name: tbl}` under the
composite key `db ++ "__" ++ tbl`. -/
def _get_all_tables_from_client (client : CatalogClient) : List (String × TableDescriptor) :=
  client.list_databases.foldl
    (fun table_map database_name =>
      (client.list_tables database_name).foldl
        (fun table_map table_name =>
          dictInsert table_map (database_name ++ "__" ++ table_name)
            { schema_name := database_name, table_name := table_name })
        table_map)
    []

/-- The flat list of (composite key, descriptor) pairs enumerated by the
catalog walk, in enumeration order, before dict insertion. -/
def allTablePairs (client : CatalogClient) : List (String × TableDescriptor) :=
  client.list_databases.flatMap
    (fun d => (client.list_tables d).map
      (fun t => (d ++ "__" ++ t, { schema_name := d, table_name := t })))

/-- Modelled from the spec: the string-similarity metric of the
`jellyfish_distance` module (not part of the embedded source file) — "a
normalized edit-distance/phonetic-style metric".  Embedded as the normalized
Levenshtein similarity: `1 - dist/max(len)` with value `1` when both strings
are empty; scores lie in `[0, 1]`. -/
def similarity_score (s t : String) : ℚ :=
  let m := max s.data.length t.data.length
  if m = 0 then 1
  else 1 - ((levenshtein Levenshtein.defaultCost s.data t.data : ℕ) : ℚ) / (m : ℚ)

/-- One step of the closest-match scan: keep the previous best candidate unless
the new key scores strictly higher; a first candidate is accepted only when its
score reaches the cutoff.  Ties are broken in favour of the first-encountered
target key. -/
def closerCandidate (search_key : String) (score_cutoff : ℚ)
    (best : Option (String × ℚ)) (key : String) : Option (String × ℚ) :=
  let score := similarity_score search_key key
  match best with
  | none => if score_cutoff ≤ score then some (key, score) else none
  | some best0 => if best0.2 < score then some (key, score) else some best0

/-- Modelled from the spec: `jellyfish_distance.extract_closest_match` (module
not in the embedded source) — "for every source key, compute a
string-similarity score against every target key ...; select the target key
with the maximum score", accepted only when the maximum score reaches
`score_cutoff`, ties broken by first-encountered target key. -/
def extract_closest_match (search_key : String) (target_keys : List String)
    (score_cutoff : ℚ) : Option String :=
  (target_keys.foldl (closerCandidate search_key score_cutoff) none).map Prod.fst

/-- The per-source-key loop of `_compare_match_tables`: closest target key with
hardcoded `score_cutoff=0`, then the table-config dict literal of the source.
All four fields of the literal read the `schema_name` of their entry (the
table-name fields carry schema names, exactly as the source lines do).
A `none` closest match or a failed target lookup is the Python `KeyError`. -/
def matchTablesLoop (target_table_map : List (String × TableDescriptor))
    (target_keys : List String) :
    List (String × TableDescriptor) → Except DVError (List TableMatchConfig)
  | [] => .ok []
  | entry :: rest =>
    match extract_closest_match entry.1 target_keys 0 with
    | none => .error (.keyError "None")
    | some target_key =>
      match lookupDict target_table_map target_key with
      | none => .error (.keyError target_key)
      | some target_entry =>
        match matchTablesLoop target_table_map target_keys rest with
        | .error e => .error e
        | .ok table_configs =>
          .ok ({ schema_name := entry.2.schema_name,
                 table_name := entry.2.schema_name,
                 target_schema_name := target_entry.schema_name,
                 target_table_name := target_entry.schema_name } :: table_configs)

/-- `_compare_match_tables`: for every source key, pair it with the closest
target key (cutoff hardcoded to 0) and emit the table-config object. -/
def _compare_match_tables (source_table_map target_table_map : List (String × TableDescriptor)) :
    Except DVError (List TableMatchConfig) :=
  matchTablesLoop target_table_map (target_table_map.map Prod.fst) source_table_map

/-- Column selector of a metric flag: `"*"` (all columns) or an explicit
JSON-encoded column list, already parsed. -/
inductive ColSelector where
  | star : ColSelector
  | cols (cs : List String) : ColSelector
  deriving DecidableEq, Repr

/-- The `col_args` computation of `get_aggregate_config`:
`None if args.count == "*" else json.loads(args.count)`. -/
def colSelectorToArgs : ColSelector → Option (List String)
  | .star => none
  | .cols cs => some cs

/-- Parsed command-line arguments of the `run` command, after JSON decoding of
the list-valued flags.  A `none` flag is an absent (falsy) flag. -/
structure Args where
  source_conn : String
  target_conn : String
  tables_list : List TableDescriptor
  validation_type : String
  count : Option ColSelector
  sum : Option ColSelector
  grouped_columns : List String
  result_handler_config : Option String
  config_file : Option String
  verbose : Bool
  deriving DecidableEq, Repr

/-- A resolved validation configuration (`ConfigManager` instance): validation
type, the two resolved connections, table identity, aggregate list, group
columns and result-handler configuration, plus the source table's column/type
information that the client supplies for type-filtered aggregate assembly. -/
structure ConfigManager where
  validation_type : String
  source_conn : ConnectionDescriptor
  target_conn : ConnectionDescriptor
  schema_name : String
  table_name : String
  aggregates : List AggregateSpec
  query_groups : List String
  result_handler_config : Option String
  table_columns : List ColumnInfo
  deriving DecidableEq, Repr

/-- Modelled from the spec: `ConfigManager.build_config_count_aggregate`
(the `config_manager` module is not part of the embedded source file) — the
whole-table count specification. -/
def ConfigManager.build_config_count_aggregate (_cm : ConfigManager) : AggregateSpec :=
  { agg_type := "count", column := none }

/-- Modelled from the spec: `ConfigManager.build_config_column_aggregates`
(the `config_manager` module is not part of the embedded source file).
Per the spec's assembler policy, a metric with `"*"` (embedded as a `none`
column selector) produces only the single whole-table spec — which the caller
injects unconditionally — so it contributes no per-column specs here; an
explicit column list produces one spec per listed column, filtered by declared
type when a type filter is supplied (out-of-filter columns are silently
excluded, not errored). -/
def ConfigManager.build_config_column_aggregates (cm : ConfigManager) (agg_type : String)
    (col_args : Option (List String)) (supported_types : Option (List String)) :
    List AggregateSpec :=
  match col_args with
  | none => []
  | some cols =>
    (cols.filter (fun c =>
        match supported_types with
        | none => true
        | some types =>
          (cm.table_columns.filter (fun ci => ci.name == c)).any
            (fun ci => types.contains ci.col_type))).map
      (fun c => { agg_type := agg_type, column := some c })

/-- Modelled from the spec: `ConfigManager.append_aggregates` appends aggregate
specs to the configuration. -/
def ConfigManager.append_aggregates (cm : ConfigManager) (specs : List AggregateSpec) :
    ConfigManager :=
  { cm with aggregates := cm.aggregates ++ specs }

/-- Modelled from the spec: `ConfigManager.append_query_groups` appends group
columns to the configuration. -/
def ConfigManager.append_query_groups (cm : ConfigManager) (groups : List String) :
    ConfigManager :=
  { cm with query_groups := cm.query_groups ++ groups }

/-- Modelled from the spec: `ConfigManager.build_config_grouped_columns` — the
group spec built from the requested grouping columns. -/
def ConfigManager.build_config_grouped_columns (_cm : ConfigManager)
    (grouped_columns : List String) : List String :=
  grouped_columns

/-- Modelled from the spec: the `ConfigManager.build_config_manager` factory
(the `config_manager` module is not part of the embedded source file) — a base
configuration bound to the validation type, the resolved connections, the
table identity and the result-handler configuration, with no aggregates or
groups yet; `table_columns` is the column/type information obtained through
the source client for this table. -/
def ConfigManager.build_config_manager (config_type : String)
    (source_conn target_conn : ConnectionDescriptor) (table_obj : TableDescriptor)
    (result_handler_config : Option String) (table_columns : List ColumnInfo) :
    ConfigManager :=
  { validation_type := config_type, source_conn := source_conn, target_conn := target_conn,
    schema_name := table_obj.schema_name, table_name := table_obj.table_name,
    aggregates := [], query_groups := [],
    result_handler_config := result_handler_config, table_columns := table_columns }

/-- `get_aggregate_config`: the whole-table count aggregate first,
unconditionally, then the per-column `count` aggregates when `--count` is
supplied (no type filter), then the per-column `sum` aggregates when `--sum`
is supplied (type filter `["int64", "float64"]`). -/
def get_aggregate_config (args : Args) (config_manager : ConfigManager) : List AggregateSpec :=
  let aggregate_configs := [config_manager.build_config_count_aggregate]
  let aggregate_configs := aggregate_configs ++
    (match args.count with
     | none => []
     | some sel => config_manager.build_config_column_aggregates "count"
         (colSelectorToArgs sel) none)
  let aggregate_configs := aggregate_configs ++
    (match args.sum with
     | none => []
     | some sel => config_manager.build_config_column_aggregates "sum"
         (colSelectorToArgs sel) (some ["int64", "float64"]))
  aggregate_configs

/-- `build_config_from_args`: append the assembled aggregates; for a
`GroupedColumn` validation additionally append the group columns parsed from
`--grouped-columns`. -/
def build_config_from_args (args : Args) (config_manager : ConfigManager) : ConfigManager :=
  let config_manager := config_manager.append_aggregates
    (get_aggregate_config args config_manager)
  if config_manager.validation_type = "GroupedColumn" then
    config_manager.append_query_groups
      (config_manager.build_config_grouped_columns args.grouped_columns)
  else config_manager

/-- `build_config_managers_from_args`: resolve the two connections once, then
build one configuration per entry of the parsed tables list, in list order.
`get_connection` is the external connection resolver and `columns_of` the
schema introspection of the acquired source client. -/
def build_config_managers_from_args (get_connection : String → ConnectionDescriptor)
    (columns_of : TableDescriptor → List ColumnInfo) (args : Args) : List ConfigManager :=
  let source_conn := get_connection args.source_conn
  let target_conn := get_connection args.target_conn
  args.tables_list.map (fun table_obj =>
    build_config_from_args args
      (ConfigManager.build_config_manager args.validation_type source_conn target_conn
        table_obj args.result_handler_config (columns_of table_obj)))


/-- The per-validation YAML block.  Modelled from the spec:
`ConfigManager.get_yaml_validation_block` (the `config_manager` module is not
part of the embedded source file) persists the validation's own fields —
validation type, table identity, aggregates, group columns — without the
transient client handles and without the document-level connection and
result-handler fields. -/
structure YamlBlock where
  validation_type : String
  schema_name : String
  table_name : String
  aggregates : List AggregateSpec
  query_groups : List String
  deriving DecidableEq, Repr

/-- Modelled from the spec: `ConfigManager.get_yaml_validation_block` (see
`YamlBlock`). -/
def ConfigManager.get_yaml_validation_block (cm : ConfigManager) : YamlBlock :=
  { validation_type := cm.validation_type, schema_name := cm.schema_name,
    table_name := cm.table_name, aggregates := cm.aggregates,
    query_groups := cm.query_groups }

/-- The persisted YAML document: top-level keys `source`, `target`,
`result_handler`, `validations`.  Each field is `Option`-valued to model
presence or absence of the key in the loaded document; the `result_handler`
value itself may be the Python `None`. -/
structure YamlDoc where
  source : Option String
  target : Option String
  result_handler : Option (Option String)
  validations : Option (List YamlBlock)
  deriving DecidableEq, Repr

/-- Reading a required key of the loaded YAML document dict: a missing key is
the Python `KeyError`, the serialization error of the error taxonomy. -/
def yamlKey {α : Type} (field : Option α) (key : String) : Except DVError α :=
  match field with
  | none => .error (.serializationError key)
  | some v => .ok v

/-- `convert_config_to_yaml`: the document-level `source`/`target` references
from the arguments, the result-handler configuration read from the FIRST
configuration of the list (`config_managers[0]` — an `IndexError` on an empty
list), and one validation block per configuration, in list order. -/
def convert_config_to_yaml (args : Args) (config_managers : List ConfigManager) :
    Except DVError YamlDoc :=
  match config_managers.head? with
  | none => .error (.indexError 0)
  | some first =>
    .ok { source := some args.source_conn, target := some args.target_conn,
          result_handler := some first.result_handler_config,
          validations := some (config_managers.map ConfigManager.get_yaml_validation_block) }

/-- `store_yaml_config_file`: build the YAML document for the supplied
configurations (the file write itself is an external effect; the document is
the value written). -/
def store_yaml_config_file (args : Args) (config_managers : List ConfigManager) :
    Except DVError YamlDoc :=
  convert_config_to_yaml args config_managers

/-- The `ConfigManager(config, ...)` constructor applied to one validation
block of the YAML path, after the document-level source/target connections and
result-handler configuration have been injected into it; `columns_of` is the
schema introspection of the acquired source client. -/
def config_manager_from_yaml_block (block : YamlBlock)
    (source_conn target_conn : ConnectionDescriptor) (result_handler : Option String)
    (columns_of : TableDescriptor → List ColumnInfo) : ConfigManager :=
  { validation_type := block.validation_type, source_conn := source_conn,
    target_conn := target_conn, schema_name := block.schema_name,
    table_name := block.table_name, aggregates := block.aggregates,
    query_groups := block.query_groups, result_handler_config := result_handler,
    table_columns := columns_of { schema_name := block.schema_name,
                                  table_name := block.table_name } }

/-- The per-block loop of `build_config_managers_from_yaml`: each iteration
reads the document-level `result_handler` key, injects it together with the
shared connections into the block, and appends the constructed configuration,
in document order. -/
def yamlBlocksLoop (source_conn target_conn : ConnectionDescriptor)
    (result_handler_field : Option (Option String))
    (columns_of : TableDescriptor → List ColumnInfo) :
    List YamlBlock → Except DVError (List ConfigManager)
  | [] => .ok []
  | block :: rest =>
    match yamlKey result_handler_field "result_handler" with
    | .error e => .error e
    | .ok result_handler =>
      match yamlBlocksLoop source_conn target_conn result_handler_field columns_of rest with
      | .error e => .error e
      | .ok config_managers =>
        .ok (config_manager_from_yaml_block block source_conn target_conn result_handler
              columns_of :: config_managers)

/-- `build_config_managers_from_yaml`: read and resolve the document-level
`source` and `target` references, acquire the two clients, then build one
configuration per validation block, in document order, injecting the shared
connections and the document-level `result_handler` into each block.
`get_connection` and `get_data_client` are the external resolver and client
acquisition, which may themselves fail. -/
def build_config_managers_from_yaml
    (get_connection : String → Except DVError ConnectionDescriptor)
    (get_data_client : ConnectionDescriptor → Except DVError Unit)
    (columns_of : TableDescriptor → List ColumnInfo) (doc : YamlDoc) :
    Except DVError (List ConfigManager) :=
  match yamlKey doc.source "source" with
  | .error e => .error e
  | .ok source_ref =>
  match get_connection source_ref with
  | .error e => .error e
  | .ok source_conn =>
  match yamlKey doc.target "target" with
  | .error e => .error e
  | .ok target_ref =>
  match get_connection target_ref with
  | .error e => .error e
  | .ok target_conn =>
  match get_data_client source_conn with
  | .error e => .error e
  | .ok _ =>
  match get_data_client target_conn with
  | .error e => .error e
  | .ok _ =>
  match yamlKey doc.validations "validations" with
  | .error e => .error e
  | .ok validations =>
    yamlBlocksLoop source_conn target_conn doc.result_handler columns_of validations

/-- `run_validation`: hand one configuration to the external validation engine
(`DataValidation(...).execute()`), synchronously. -/
def run_validation (execute : ConfigManager → Except DVError Unit)
    (config_manager : ConfigManager) : Except DVError Unit :=
  execute config_manager

/-- `run_validations`: execute each configuration in list order.  The first
component of the result is the sequence of configurations actually handed to
the engine, in invocation order; the second is the first error raised, if any
(a raised error aborts the loop, so nothing after the failing configuration is
executed). -/
def run_validations (execute : ConfigManager → Except DVError Unit) :
    List ConfigManager → List ConfigManager × Option DVError
  | [] => ([], none)
  | config_manager :: rest =>
    match run_validation execute config_manager with
    | .error e => ([config_manager], some e)
    | .ok _ =>
      let result := run_validations execute rest
      (config_manager :: result.1, result.2)

/-- Outcome of the `run` command: either the YAML document written to the
config file, or the sequence of configurations executed. -/
inductive RunOutcome where
  | wroteYaml (doc : YamlDoc) : RunOutcome
  | ranValidations (executed : List ConfigManager) : RunOutcome
  deriving DecidableEq, Repr

/-- `run`: build the configurations from the arguments; with `--config-file`
persist them as a YAML document, otherwise execute them. -/
def run (get_connection : String → ConnectionDescriptor)
    (columns_of : TableDescriptor → List ColumnInfo)
    (execute : ConfigManager → Except DVError Unit) (args : Args) :
    Except DVError RunOutcome :=
  let config_managers := build_config_managers_from_args get_connection columns_of args
  match args.config_file with
  | some _ =>
    match store_yaml_config_file args config_managers with
    | .error e => .error e
    | .ok doc => .ok (.wroteYaml doc)
  | none =>
    match run_validations execute config_managers with
    | (_, some e) => .error e
    | (executed, none) => .ok (.ranValidations executed)

/-- Parsed arguments of the `connections` command. -/
structure ConnectionsArgs where
  connect_cmd : String
  connection_name : String
  connection_fields : String
  deriving DecidableEq, Repr

/-- Modelled from the spec: `cli_tools.get_connection_config_from_args` (the
`cli_tools` module is not part of the embedded source file) — the inline
connection descriptor assembled from the command-line fields. -/
def get_connection_config_from_args (args : ConnectionsArgs) : ConnectionDescriptor :=
  { config := args.connection_fields }

/-- Modelled from the spec: `cli_tools.store_connection` (the `cli_tools`
module is not part of the embedded source file) — persist the descriptor in
the connection store under the given name. -/
def store_connection (store : List (String × ConnectionDescriptor)) (name : String)
    (conn : ConnectionDescriptor) : List (String × ConnectionDescriptor) :=
  dictInsert store name conn

/-- `run_connections`: `list` is read-only; `add` assembles the descriptor,
acquires a live client from it to validate it, and only then persists it;
any other sub-command raises a `ValueError`.  The result is the connection
store after the command together with the error raised, if any. -/
def run_connections (get_data_client : ConnectionDescriptor → Except DVError Unit)
    (store : List (String × ConnectionDescriptor)) (args : ConnectionsArgs) :
    List (String × ConnectionDescriptor) × Option DVError :=
  if args.connect_cmd = "list" then (store, none)
  else if args.connect_cmd = "add" then
    let conn := get_connection_config_from_args args
    match get_data_client conn with
    | .error e => (store, some e)
    | .ok _ => (store_connection store args.connection_name conn, none)
  else (store, some (.valueError args.connect_cmd))


theorem levenshtein_defaultCost_le_max {α : Type} [DecidableEq α]
    (xs ys : List α) :
    levenshtein Levenshtein.defaultCost xs ys ≤ max xs.length ys.length := by
  induction xs generalizing ys with
  | nil =>
    induction ys with
    | nil => simp
    | cons y ys ih =>
      simp only [levenshtein_nil_cons]
      simp only [Levenshtein.defaultCost_insert, List.length_nil, List.length_cons] at ih ⊢
      omega
  | cons x xs ih =>
    cases ys with
    | nil =>
      have h := ih []
      simp only [levenshtein_cons_nil, Levenshtein.defaultCost_delete, List.length_nil,
        List.length_cons] at h ⊢
      omega
    | cons y ys =>
      have h := ih ys
      rw [levenshtein_cons_cons]
      have h2 : Levenshtein.defaultCost.substitute x y ≤ 1 := by
        simp only [Levenshtein.defaultCost_substitute]
        split <;> omega
      refine le_trans (min_le_right _ _) (le_trans (min_le_right _ _) ?_)
      have h3 : Levenshtein.defaultCost.substitute x y + levenshtein Levenshtein.defaultCost xs ys ≤
          1 + max xs.length ys.length := add_le_add h2 h
      refine le_trans h3 ?_
      simp only [List.length_cons]
      omega

theorem similarity_score_nonneg (s t : String) : 0 ≤ similarity_score s t := by
  dsimp only [similarity_score]
  by_cases h : max s.data.length t.data.length = 0
  · rw [if_pos h]
    norm_num
  · rw [if_neg h]
    have hpos : (0 : ℚ) < ((max s.data.length t.data.length : ℕ) : ℚ) := by
      exact_mod_cast Nat.pos_of_ne_zero h
    rw [sub_nonneg, div_le_one hpos]
    exact_mod_cast levenshtein_defaultCost_le_max s.data t.data

theorem foldl_closerCandidate_isSome (search_key : String) (score_cutoff : ℚ)
    (l : List String) (acc : Option (String × ℚ)) (h : acc.isSome) :
    (l.foldl (closerCandidate search_key score_cutoff) acc).isSome := by
  induction l generalizing acc with
  | nil => simpa
  | cons k l ih =>
    simp only [List.foldl]
    apply ih
    rcases acc with _ | best0
    · simp at h
    · simp only [closerCandidate]
      split <;> simp

theorem extract_closest_match_isSome_of_nonempty (search_key : String)
    (target_keys : List String) (hne : target_keys ≠ []) :
    (extract_closest_match search_key target_keys 0).isSome := by
  cases target_keys with
  | nil => exact absurd rfl hne
  | cons k l =>
    simp only [extract_closest_match, List.foldl, Option.isSome_map']
    apply foldl_closerCandidate_isSome
    simp only [closerCandidate]
    rw [if_pos (similarity_score_nonneg search_key k)]
    rfl

theorem foldl_closerCandidate_mem (search_key : String) (score_cutoff : ℚ)
    (S : List String) (l : List String) (hl : ∀ k ∈ l, k ∈ S)
    (acc : Option (String × ℚ)) (hacc : ∀ q, acc = some q → q.1 ∈ S) :
    ∀ p, l.foldl (closerCandidate search_key score_cutoff) acc = some p → p.1 ∈ S := by
  induction l generalizing acc with
  | nil => exact hacc
  | cons k l ih =>
    intro p hp
    refine ih (fun k2 hk2 => hl k2 (List.mem_cons_of_mem _ hk2)) _ ?_ p hp
    intro q hq
    rcases acc with _ | best0
    · simp only [closerCandidate] at hq
      split at hq
      · cases hq
        exact hl k (List.mem_cons_self _ _)
      · cases hq
    · simp only [closerCandidate] at hq
      split at hq
      · cases hq
        exact hl k (List.mem_cons_self _ _)
      · cases hq
        exact hacc _ rfl

theorem extract_closest_match_mem (search_key : String) (target_keys : List String)
    (score_cutoff : ℚ) (tk : String)
    (h : extract_closest_match search_key target_keys score_cutoff = some tk) :
    tk ∈ target_keys := by
  simp only [extract_closest_match, Option.map_eq_some'] at h
  obtain ⟨p, hp, hfst⟩ := h
  subst hfst
  exact foldl_closerCandidate_mem search_key score_cutoff target_keys target_keys
    (fun k hk => hk) none (by simp) p hp

theorem lookupDict_isSome_of_mem {α : Type} (m : List (String × α)) (k : String)
    (h : k ∈ m.map Prod.fst) : (lookupDict m k).isSome := by
  induction m with
  | nil => simp at h
  | cons p rest ih =>
    by_cases hk : p.1 = k
    · simp [lookupDict, hk]
    · simp only [List.map_cons, List.mem_cons] at h
      rcases h with h | h
      · exact absurd h.symm hk
      · simp [lookupDict, hk, ih h]

theorem matchTablesLoop_total (target_table_map : List (String × TableDescriptor))
    (hne : target_table_map ≠ []) (source : List (String × TableDescriptor)) :
    ∃ table_configs,
      matchTablesLoop target_table_map (target_table_map.map Prod.fst) source = .ok table_configs ∧
      table_configs.length = source.length := by
  induction source with
  | nil => exact ⟨[], rfl, rfl⟩
  | cons entry rest ih =>
    have hkeys_ne : target_table_map.map Prod.fst ≠ [] := by
      simpa using hne
    have hsome := extract_closest_match_isSome_of_nonempty entry.1
      (target_table_map.map Prod.fst) hkeys_ne
    obtain ⟨tk, htk⟩ := Option.isSome_iff_exists.mp hsome
    have hmem := extract_closest_match_mem entry.1 _ 0 tk htk
    have hlk := lookupDict_isSome_of_mem target_table_map tk hmem
    obtain ⟨v, hv⟩ := Option.isSome_iff_exists.mp hlk
    obtain ⟨table_configs, hc, hlen⟩ := ih
    refine ⟨{ schema_name := entry.2.schema_name, table_name := entry.2.schema_name,
              target_schema_name := v.schema_name, target_table_name := v.schema_name }
            :: table_configs, ?_, by simp [hlen]⟩
    simp only [matchTablesLoop, htk, hv, hc]

theorem lookupDict_append_none {α : Type} (m m2 : List (String × α)) (k : String)
    (h1 : lookupDict m k = none) (h2 : lookupDict m2 k = none) :
    lookupDict (m ++ m2) k = none := by
  induction m with
  | nil => simpa
  | cons p rest ih =>
    by_cases hk : p.1 = k
    · simp [lookupDict, hk] at h1
    · simp only [lookupDict, if_neg hk] at h1
      simp only [List.cons_append, lookupDict, if_neg hk]
      exact ih h1

theorem dictInsert_of_fresh {α : Type} (m : List (String × α)) (k : String) (v : α)
    (h : lookupDict m k = none) : dictInsert m k v = m ++ [(k, v)] := by
  simp [dictInsert, h]

theorem foldl_dictInsert_fresh {α : Type} (l : List (String × α)) :
    ∀ (m : List (String × α)), (∀ p ∈ l, lookupDict m p.1 = none) →
      (l.map Prod.fst).Nodup →
      l.foldl (fun acc p => dictInsert acc p.1 p.2) m = m ++ l := by
  induction l with
  | nil =>
    intro m _ _
    simp
  | cons p rest ih =>
    intro m hfresh hnodup
    simp only [List.map_cons, List.nodup_cons] at hnodup
    have hstep : dictInsert m p.1 p.2 = m ++ [p] :=
      dictInsert_of_fresh m p.1 p.2 (hfresh p (List.mem_cons_self _ _))
    have hfresh2 : ∀ q ∈ rest, lookupDict (m ++ [p]) q.1 = none := by
      intro q hq
      apply lookupDict_append_none
      · exact hfresh q (List.mem_cons_of_mem _ hq)
      · have hne : p.1 ≠ q.1 := by
          intro hEq
          exact hnodup.1 (hEq ▸ List.mem_map_of_mem Prod.fst hq)
        simp [lookupDict, hne]
    simp only [List.foldl, hstep]
    rw [ih (m ++ [p]) hfresh2 hnodup.2]
    simp

theorem foldl_flatMap_eq {γ α β : Type} (f : γ → List α) (F : β → α → β)
    (ds : List γ) :
    ∀ (init : β), (ds.flatMap f).foldl F init =
      ds.foldl (fun acc d => (f d).foldl F acc) init := by
  induction ds with
  | nil =>
    intro init
    simp
  | cons d ds ih =>
    intro init
    simp [List.foldl_append, ih]

theorem get_all_tables_eq_pairs_fold (client : CatalogClient) :
    _get_all_tables_from_client client =
      (allTablePairs client).foldl (fun acc p => dictInsert acc p.1 p.2) [] := by
  unfold _get_all_tables_from_client allTablePairs
  rw [foldl_flatMap_eq]
  congr 1
  funext acc d
  rw [List.foldl_map]

theorem length_flatMap_const {γ α : Type} (f : γ → List α) (T : ℕ) (ds : List γ)
    (h : ∀ d ∈ ds, (f d).length = T) : (ds.flatMap f).length = ds.length * T := by
  induction ds with
  | nil => simp
  | cons d ds ih =>
    simp only [List.flatMap_cons, List.length_append, List.length_cons]
    rw [h d (List.mem_cons_self _ _), ih (fun d2 hd2 => h d2 (List.mem_cons_of_mem _ hd2))]
    ring

/-- Claim C1, counterexample (Scenario C of the spec): with source catalog
containing only `s__orphan` and target catalog containing only `s__other`, the
maximum similarity score is below the cutoff 0.9, yet `_compare_match_tables`
still emits a pairing for `s__orphan` — the source key is not omitted.  This
refutes the claim that a match is emitted only if the maximum score reaches
the requested cutoff. -/
theorem C1_cutoff_counterexample :
    similarity_score "s__orphan" "s__other" < 9 / 10 ∧
    _compare_match_tables [("s__orphan", { schema_name := "s", table_name := "orphan" })]
        [("s__other", { schema_name := "s", table_name := "other" })] =
      .ok [{ schema_name := "s", table_name := "s", target_schema_name := "s",
             target_table_name := "s" }] := by
  have h4 : (levenshtein Levenshtein.defaultCost "s__orphan".data "s__other".data : ℕ) = 4 := by
    decide
  have hs : similarity_score "s__orphan" "s__other" = 5 / 9 := by
    simp only [similarity_score, show "s__orphan".data.length = 9 from rfl,
      show "s__other".data.length = 8 from rfl, h4]
    norm_num
  refine ⟨by rw [hs]; norm_num, ?_⟩
  have he : extract_closest_match "s__orphan" ["s__other"] 0 = some "s__other" := by
    simp only [extract_closest_match, List.foldl, closerCandidate, hs]
    norm_num
  simp only [_compare_match_tables, List.map, matchTablesLoop, he, lookupDict]
  simp

/-- Claim C1, amended: `_compare_match_tables` calls the closest-match helper
with a hardcoded cutoff of 0, and similarity scores are nonnegative, so
whenever the target catalog is nonempty every source key is paired with its
highest-scoring target key; no source key is ever omitted, regardless of any
requested cutoff. -/
theorem C1_matcher_never_omits (source_table_map target_table_map : List (String × TableDescriptor))
    (hne : target_table_map ≠ []) :
    ∃ table_configs,
      _compare_match_tables source_table_map target_table_map = .ok table_configs ∧
      table_configs.length = source_table_map.length :=
  matchTablesLoop_total target_table_map hne source_table_map

/-- Claim C1, witness for the amended theorem at a concrete input. -/
theorem C1_matcher_never_omits_witness :
    ∃ table_configs,
      _compare_match_tables [("a__b", { schema_name := "a", table_name := "b" })]
          [("c__d", { schema_name := "c", table_name := "d" })] = .ok table_configs ∧
      table_configs.length = 1 :=
  C1_matcher_never_omits [("a__b", { schema_name := "a", table_name := "b" })]
    [("c__d", { schema_name := "c", table_name := "d" })] (by simp)

/-- Claim C2: evaluation of `_compare_match_tables` at the failing input.  With
source and target catalogs both containing the single entry
`s__t1 ↦ {schema_name := "s", table_name := "t1"}`, the emitted pairing carries
the schema name `"s"` in both table-name fields instead of the catalog entry's
table name `"t1"`: the source lines read `schema_name` where `table_name` is
expected, so the claimed invariant fails on the code. -/
theorem C2_table_fields_bug_eval :
    _compare_match_tables [("s__t1", { schema_name := "s", table_name := "t1" })]
        [("s__t1", { schema_name := "s", table_name := "t1" })] =
      .ok [{ schema_name := "s", table_name := "s", target_schema_name := "s",
             target_table_name := "s" }] := by
  have h4 : (levenshtein Levenshtein.defaultCost "s__t1".data "s__t1".data : ℕ) = 0 := by
    decide
  have hs : similarity_score "s__t1" "s__t1" = 1 := by
    simp only [similarity_score, show "s__t1".data.length = 5 from rfl, h4]
    norm_num
  have he : extract_closest_match "s__t1" ["s__t1"] 0 = some "s__t1" := by
    simp only [extract_closest_match, List.foldl, closerCandidate, hs]
    norm_num
  simp only [_compare_match_tables, List.map, matchTablesLoop, he, lookupDict]
  simp

/-- Claim C5: for a catalog with `D` databases of `T` tables each, all
composite keys distinct, `_get_all_tables_from_client` returns exactly the
enumerated `(key, descriptor)` pairs — one entry per distinct
`(database, table)` pair, keyed `schema ++ "__" ++ table` and mapping to the
descriptor of that pair — and its size is exactly `D * T`. -/
theorem C5_catalog_enumerator (client : CatalogClient) (D T : ℕ)
    (hD : client.list_databases.length = D)
    (hT : ∀ d ∈ client.list_databases, (client.list_tables d).length = T)
    (hnodup : ((allTablePairs client).map Prod.fst).Nodup) :
    _get_all_tables_from_client client = allTablePairs client ∧
    (_get_all_tables_from_client client).length = D * T ∧
    ∀ p ∈ _get_all_tables_from_client client,
      p.1 = p.2.schema_name ++ "__" ++ p.2.table_name ∧
      p.2.schema_name ∈ client.list_databases ∧
      p.2.table_name ∈ client.list_tables p.2.schema_name := by
  have heq : _get_all_tables_from_client client = allTablePairs client := by
    rw [get_all_tables_eq_pairs_fold]
    have h := foldl_dictInsert_fresh (allTablePairs client) []
      (by intro p _; rfl) hnodup
    simpa using h
  refine ⟨heq, ?_, ?_⟩
  · rw [heq]
    unfold allTablePairs
    rw [length_flatMap_const _ T client.list_databases
      (by intro d hd; simp [hT d hd]), hD]
  · intro p hp
    rw [heq] at hp
    unfold allTablePairs at hp
    simp only [List.mem_flatMap, List.mem_map] at hp
    obtain ⟨d, hd, t, ht, hpe⟩ := hp
    subst hpe
    exact ⟨rfl, hd, ht⟩

/-- Claim C5, witness: a concrete catalog with 2 databases of 2 tables each
yields exactly 4 entries. -/
theorem C5_catalog_enumerator_witness :
    _get_all_tables_from_client ⟨["d1", "d2"], fun _ => ["t1", "t2"]⟩ =
      allTablePairs ⟨["d1", "d2"], fun _ => ["t1", "t2"]⟩ ∧
    (_get_all_tables_from_client ⟨["d1", "d2"], fun _ => ["t1", "t2"]⟩).length = 2 * 2 :=
  ⟨(C5_catalog_enumerator ⟨["d1", "d2"], fun _ => ["t1", "t2"]⟩ 2 2 rfl
      (by decide) (by decide)).1,
   (C5_catalog_enumerator ⟨["d1", "d2"], fun _ => ["t1", "t2"]⟩ 2 2 rfl
      (by decide) (by decide)).2.1⟩
/-- Claim C3: with a `"*"` count selector and no other metric flag, every
configuration assembled by the argument path has as its aggregate list exactly
the single whole-table count specification. -/
theorem C3_count_star_single_aggregate (get_connection : String → ConnectionDescriptor)
    (columns_of : TableDescriptor → List ColumnInfo) (args : Args)
    (hcount : args.count = some ColSelector.star) (hsum : args.sum = none) :
    ∀ cm ∈ build_config_managers_from_args get_connection columns_of args,
      cm.aggregates = [{ agg_type := "count", column := none }] := by
  intro cm hcm
  simp only [build_config_managers_from_args, List.mem_map] at hcm
  obtain ⟨table_obj, _, rfl⟩ := hcm
  simp only [build_config_from_args, get_aggregate_config, hcount, hsum,
    colSelectorToArgs, ConfigManager.build_config_column_aggregates,
    ConfigManager.build_config_count_aggregate, ConfigManager.append_aggregates,
    ConfigManager.build_config_manager]
  split <;> simp [ConfigManager.append_query_groups]

/-- Claim C3, witness (Scenario A): one table, type `Column`, `count "*"` —
the assembled configuration's aggregates are exactly `[count(all)]`. -/
theorem C3_count_star_single_aggregate_witness :
    (build_config_from_args
        { source_conn := "A", target_conn := "B",
          tables_list := [{ schema_name := "s", table_name := "t" }],
          validation_type := "Column", count := some ColSelector.star, sum := none,
          grouped_columns := [], result_handler_config := none, config_file := none,
          verbose := false }
        (ConfigManager.build_config_manager "Column" { config := "A" } { config := "B" }
          { schema_name := "s", table_name := "t" } none [])).aggregates =
      [{ agg_type := "count", column := none }] :=
  C3_count_star_single_aggregate (fun s => { config := s }) (fun _ => [])
    { source_conn := "A", target_conn := "B",
      tables_list := [{ schema_name := "s", table_name := "t" }],
      validation_type := "Column", count := some ColSelector.star, sum := none,
      grouped_columns := [], result_handler_config := none, config_file := none,
      verbose := false }
    rfl rfl _ (by decide)

/-- Claim C4: every configuration assembled by the argument path carries at
least one aggregate, and its first aggregate is the unconditionally injected
whole-table count, whatever the flags. -/
theorem C4_count_always_injected (get_connection : String → ConnectionDescriptor)
    (columns_of : TableDescriptor → List ColumnInfo) (args : Args) :
    ∀ cm ∈ build_config_managers_from_args get_connection columns_of args,
      cm.aggregates.head? = some { agg_type := "count", column := none } ∧
      1 ≤ cm.aggregates.length := by
  intro cm hcm
  simp only [build_config_managers_from_args, List.mem_map] at hcm
  obtain ⟨table_obj, _, rfl⟩ := hcm
  simp only [build_config_from_args, get_aggregate_config,
    ConfigManager.build_config_count_aggregate, ConfigManager.append_aggregates,
    ConfigManager.build_config_manager]
  split <;> simp [ConfigManager.append_query_groups]

/-- Claim C4, witness: a run with no metric flags at all still yields a
configuration whose aggregates begin with (and hence contain) the whole-table
count. -/
theorem C4_count_always_injected_witness :
    (build_config_from_args
        { source_conn := "A2", target_conn := "B2",
          tables_list := [{ schema_name := "s2", table_name := "t2" }],
          validation_type := "Column", count := none, sum := none,
          grouped_columns := [], result_handler_config := none, config_file := none,
          verbose := false }
        (ConfigManager.build_config_manager "Column" { config := "A2" } { config := "B2" }
          { schema_name := "s2", table_name := "t2" } none [])).aggregates.head? =
      some { agg_type := "count", column := none } :=
  (C4_count_always_injected (fun s => { config := s }) (fun _ => [])
    { source_conn := "A2", target_conn := "B2",
      tables_list := [{ schema_name := "s2", table_name := "t2" }],
      validation_type := "Column", count := none, sum := none,
      grouped_columns := [], result_handler_config := none, config_file := none,
      verbose := false }
    _ (by decide)).1

theorem yamlBlocksLoop_ok (source_conn target_conn : ConnectionDescriptor)
    (rh : Option String) (columns_of : TableDescriptor → List ColumnInfo)
    (blocks : List YamlBlock) :
    yamlBlocksLoop source_conn target_conn (some rh) columns_of blocks =
      .ok (blocks.map (fun block =>
        config_manager_from_yaml_block block source_conn target_conn rh columns_of)) := by
  induction blocks with
  | nil => rfl
  | cons block rest ih =>
    simp only [yamlBlocksLoop, yamlKey, ih, List.map_cons]

theorem forall₂_map_self {α β : Type} (R : α → β → Prop) (f : α → β) (l : List α)
    (h : ∀ a ∈ l, R a (f a)) : List.Forall₂ R l (l.map f) := by
  induction l with
  | nil => exact List.Forall₂.nil
  | cons a l ih =>
    exact List.Forall₂.cons (h a (List.mem_cons_self _ _))
      (ih (fun a2 ha2 => h a2 (List.mem_cons_of_mem _ ha2)))

/-- Claim C6: encoding a non-empty list of assembled configurations (sharing
the document-level connections and result-handler configuration, as the
argument path produces) to a YAML document and decoding it back yields the
same number of configurations, in the original order, with identical
validation type, identical aggregates (hence aggregate counts), and identical
connection identities; the document-level `source`, `target` and
`result_handler` fields each appear exactly once, at document level. -/
theorem C6_yaml_round_trip (args : Args) (cms : List ConfigManager)
    (get_connection : String → Except DVError ConnectionDescriptor)
    (get_data_client : ConnectionDescriptor → Except DVError Unit)
    (columns_of : TableDescriptor → List ColumnInfo)
    (sc tc : ConnectionDescriptor) (rh : Option String)
    (hne : cms ≠ [])
    (hshared : ∀ cm ∈ cms, cm.source_conn = sc ∧ cm.target_conn = tc ∧
      cm.result_handler_config = rh)
    (hres_s : get_connection args.source_conn = .ok sc)
    (hres_t : get_connection args.target_conn = .ok tc)
    (hcli : ∀ c, get_data_client c = .ok ()) :
    ∃ doc cms2,
      convert_config_to_yaml args cms = .ok doc ∧
      doc.source = some args.source_conn ∧
      doc.target = some args.target_conn ∧
      doc.result_handler = some rh ∧
      build_config_managers_from_yaml get_connection get_data_client columns_of doc =
        .ok cms2 ∧
      cms2.length = cms.length ∧
      List.Forall₂ (fun a b =>
        b.validation_type = a.validation_type ∧ b.aggregates = a.aggregates ∧
        b.source_conn = a.source_conn ∧ b.target_conn = a.target_conn ∧
        b.result_handler_config = a.result_handler_config) cms cms2 := by
  obtain ⟨c0, rest, rfl⟩ := List.exists_cons_of_ne_nil hne
  have hc0 := hshared c0 (List.mem_cons_self _ _)
  refine ⟨{ source := some args.source_conn, target := some args.target_conn,
            result_handler := some rh,
            validations := some ((c0 :: rest).map ConfigManager.get_yaml_validation_block) },
          (c0 :: rest).map (fun cm => config_manager_from_yaml_block
            cm.get_yaml_validation_block sc tc rh columns_of),
          ?_, rfl, rfl, rfl, ?_, by simp, ?_⟩
  · simp only [convert_config_to_yaml, List.head?]
    rw [hc0.2.2]
  · simp only [build_config_managers_from_yaml, yamlKey, hres_s, hres_t, hcli,
      yamlBlocksLoop_ok, List.map_map]
    rfl
  · refine forall₂_map_self _ _ _ ?_
    intro cm hcm
    have hsh := hshared cm hcm
    refine ⟨rfl, rfl, ?_, ?_, hsh.2.2.symm⟩
    · exact hsh.1.symm
    · exact hsh.2.1.symm

/-- Claim C6, witness: a concrete two-configuration list round-trips through
the YAML document with both blocks present in original order. -/
theorem C6_yaml_round_trip_witness :
    ∃ (doc : YamlDoc) (cms2 : List ConfigManager),
      convert_config_to_yaml
          { source_conn := "S", target_conn := "T",
            tables_list := [], validation_type := "Column", count := none, sum := none,
            grouped_columns := [], result_handler_config := none,
            config_file := some "c.yaml", verbose := false }
          [{ validation_type := "Column", source_conn := { config := "S" },
             target_conn := { config := "T" }, schema_name := "s1", table_name := "t1",
             aggregates := [{ agg_type := "count", column := none }], query_groups := [],
             result_handler_config := none, table_columns := [] },
           { validation_type := "Column", source_conn := { config := "S" },
             target_conn := { config := "T" }, schema_name := "s2", table_name := "t2",
             aggregates := [{ agg_type := "count", column := none }], query_groups := [],
             result_handler_config := none, table_columns := [] }] = .ok doc ∧
      doc.source = some "S" ∧
      doc.target = some "T" ∧
      doc.result_handler = some none ∧
      build_config_managers_from_yaml (fun s => .ok { config := s }) (fun _ => .ok ())
          (fun _ => []) doc = .ok cms2 ∧
      cms2.length = 2 ∧
      List.Forall₂ (fun (a b : ConfigManager) =>
        b.validation_type = a.validation_type ∧ b.aggregates = a.aggregates ∧
        b.source_conn = a.source_conn ∧ b.target_conn = a.target_conn ∧
        b.result_handler_config = a.result_handler_config)
        [{ validation_type := "Column", source_conn := { config := "S" },
           target_conn := { config := "T" }, schema_name := "s1", table_name := "t1",
           aggregates := [{ agg_type := "count", column := none }], query_groups := [],
           result_handler_config := none, table_columns := [] },
         { validation_type := "Column", source_conn := { config := "S" },
           target_conn := { config := "T" }, schema_name := "s2", table_name := "t2",
           aggregates := [{ agg_type := "count", column := none }], query_groups := [],
           result_handler_config := none, table_columns := [] }] cms2 := by
  have h := C6_yaml_round_trip
    { source_conn := "S", target_conn := "T",
      tables_list := [], validation_type := "Column", count := none, sum := none,
      grouped_columns := [], result_handler_config := none,
      config_file := some "c.yaml", verbose := false }
    [{ validation_type := "Column", source_conn := { config := "S" },
       target_conn := { config := "T" }, schema_name := "s1", table_name := "t1",
       aggregates := [{ agg_type := "count", column := none }], query_groups := [],
       result_handler_config := none, table_columns := [] },
     { validation_type := "Column", source_conn := { config := "S" },
       target_conn := { config := "T" }, schema_name := "s2", table_name := "t2",
       aggregates := [{ agg_type := "count", column := none }], query_groups := [],
       result_handler_config := none, table_columns := [] }]
    (fun s => .ok { config := s }) (fun _ => .ok ()) (fun _ => [])
    { config := "S" } { config := "T" } none
    (by decide) (by decide) rfl rfl (fun c => rfl)
  exact h

/-- Claim C7: a YAML document missing one of the required top-level keys
(`source`, `target`, `validations`) makes `build_config_managers_from_yaml`
fail with the serialization error naming a missing key — not succeed and not
fail with a different error kind — provided the external connection resolver
and client acquisition themselves succeed. -/
theorem C7_missing_key_serialization
    (get_connection : String → Except DVError ConnectionDescriptor)
    (get_data_client : ConnectionDescriptor → Except DVError Unit)
    (columns_of : TableDescriptor → List ColumnInfo) (doc : YamlDoc)
    (hmiss : doc.source = none ∨ doc.target = none ∨ doc.validations = none)
    (hres : ∀ s, ∃ c, get_connection s = .ok c)
    (hcli : ∀ c, get_data_client c = .ok ()) :
    ∃ key, build_config_managers_from_yaml get_connection get_data_client columns_of doc =
      .error (.serializationError key) := by
  rcases hmiss with h | h | h
  · exact ⟨"source", by simp [build_config_managers_from_yaml, yamlKey, h]⟩
  · cases hsrc : doc.source with
    | none => exact ⟨"source", by simp [build_config_managers_from_yaml, yamlKey, hsrc]⟩
    | some s =>
      obtain ⟨c, hc⟩ := hres s
      exact ⟨"target", by simp [build_config_managers_from_yaml, yamlKey, hsrc, hc, h]⟩
  · cases hsrc : doc.source with
    | none => exact ⟨"source", by simp [build_config_managers_from_yaml, yamlKey, hsrc]⟩
    | some s =>
      obtain ⟨c, hc⟩ := hres s
      cases htgt : doc.target with
      | none =>
        exact ⟨"target", by simp [build_config_managers_from_yaml, yamlKey, hsrc, hc, htgt]⟩
      | some t =>
        obtain ⟨c2, hc2⟩ := hres t
        exact ⟨"validations",
          by simp [build_config_managers_from_yaml, yamlKey, hsrc, htgt, hc, hc2, hcli, h]⟩

/-- Claim C7, witness: a document with `source` absent (but `target`,
`result_handler` and `validations` present) is rejected with the
serialization error. -/
theorem C7_missing_key_serialization_witness :
    ∃ key, build_config_managers_from_yaml (fun s => .ok { config := s })
        (fun _ => .ok ()) (fun _ => [])
        { source := none, target := some "T", result_handler := some none,
          validations := some [] } =
      .error (.serializationError key) :=
  C7_missing_key_serialization (fun s => .ok { config := s }) (fun _ => .ok ())
    (fun _ => [])
    { source := none, target := some "T", result_handler := some none,
      validations := some [] }
    (Or.inl rfl) (fun s => ⟨{ config := s }, rfl⟩) (fun _ => rfl)

/-- Claim C8: the validation runner hands each configuration to the engine
exactly once, strictly in list order.  If no configuration raises, the
invocation sequence is exactly the input list; if one raises, the invocation
sequence is the prefix of the list up to and including the first failing
configuration — every earlier configuration succeeded and nothing after the
failing one is executed. -/
theorem C8_runner_order (execute : ConfigManager → Except DVError Unit)
    (cms : List ConfigManager) :
    ((run_validations execute cms).2 = none → (run_validations execute cms).1 = cms) ∧
    (∀ e, (run_validations execute cms).2 = some e →
      ∃ done c rest, cms = done ++ c :: rest ∧
        (run_validations execute cms).1 = done ++ [c] ∧
        (∀ d ∈ done, execute d = .ok ()) ∧ execute c = .error e) := by
  induction cms with
  | nil =>
    refine ⟨fun _ => rfl, fun e he => ?_⟩
    simp [run_validations] at he
  | cons cm rest ih =>
    cases hex : execute cm with
    | error e0 =>
      constructor
      · intro h
        simp [run_validations, run_validation, hex] at h
      · intro e he
        simp only [run_validations, run_validation, hex, Option.some.injEq] at he
        subst he
        refine ⟨[], cm, rest, rfl, ?_, by simp, hex⟩
        simp [run_validations, run_validation, hex]
    | ok u =>
      cases u
      constructor
      · intro h
        simp only [run_validations, run_validation, hex] at h ⊢
        rw [ih.1 h]
      · intro e he
        simp only [run_validations, run_validation, hex] at he ⊢
        obtain ⟨done, c, rest2, hsplit, htrace, hdone, hc⟩ := ih.2 e he
        refine ⟨cm :: done, c, rest2, by rw [List.cons_append, hsplit], by
          simp [htrace], ?_, hc⟩
        intro d hd
        rcases List.mem_cons.mp hd with rfl | hd2
        · exact hex
        · exact hdone d hd2

/-- Claim C8, witness: with an engine that always succeeds, a one-element
configuration list is executed exactly as given. -/
theorem C8_runner_order_witness :
    (run_validations (fun _ => .ok ())
      [ConfigManager.build_config_manager "Column" { config := "W1" } { config := "W2" }
        { schema_name := "ws", table_name := "wt" } none []]).1 =
    [ConfigManager.build_config_manager "Column" { config := "W1" } { config := "W2" }
      { schema_name := "ws", table_name := "wt" } none []] :=
  (C8_runner_order (fun _ => .ok ())
    [ConfigManager.build_config_manager "Column" { config := "W1" } { config := "W2" }
      { schema_name := "ws", table_name := "wt" } none []]).1 rfl

/-- Claim C9: on `connections add`, a live client is acquired from the new
descriptor before it is persisted; if client acquisition raises, the store
operation is never invoked and the connection store is returned unchanged,
with the acquisition error propagated. -/
theorem C9_add_client_failure_no_store
    (get_data_client : ConnectionDescriptor → Except DVError Unit)
    (store : List (String × ConnectionDescriptor)) (args : ConnectionsArgs) (e : DVError)
    (hadd : args.connect_cmd = "add")
    (hfail : get_data_client (get_connection_config_from_args args) = .error e) :
    run_connections get_data_client store args = (store, some e) := by
  simp [run_connections, hadd, hfail]

/-- Claim C9, witness: a failing client acquisition on `add` leaves a concrete
empty store unchanged and surfaces the connection error. -/
theorem C9_add_client_failure_no_store_witness :
    run_connections (fun _ => .error (.connectionError "bad")) []
      { connect_cmd := "add", connection_name := "c1", connection_fields := "f" } =
      ([], some (.connectionError "bad")) :=
  C9_add_client_failure_no_store (fun _ => .error (.connectionError "bad")) []
    { connect_cmd := "add", connection_name := "c1", connection_fields := "f" }
    (.connectionError "bad") rfl rfl

/-- Claim C10: a `run` invocation carrying `--config-file` whose tables list
parses to the empty list fails with the `IndexError` of reading the
result-handler field from the first element of the empty configuration list —
it does not write a document with zero validation blocks. -/
theorem C10_empty_tables_with_config_file (get_connection : String → ConnectionDescriptor)
    (columns_of : TableDescriptor → List ColumnInfo)
    (execute : ConfigManager → Except DVError Unit) (args : Args) (p : String)
    (hfile : args.config_file = some p) (htables : args.tables_list = []) :
    run get_connection columns_of execute args = .error (.indexError 0) := by
  simp [run, hfile, build_config_managers_from_args, htables, store_yaml_config_file,
    convert_config_to_yaml]

/-- Claim C10, witness: a concrete argument set with a config file and an
empty tables list fails with the `IndexError`. -/
theorem C10_empty_tables_with_config_file_witness :
    run (fun s => { config := s }) (fun _ => []) (fun _ => .ok ())
      { source_conn := "A3", target_conn := "B3", tables_list := [],
        validation_type := "Column", count := none, sum := none, grouped_columns := [],
        result_handler_config := none, config_file := some "out.yaml",
        verbose := false } = .error (.indexError 0) :=
  C10_empty_tables_with_config_file (fun s => { config := s }) (fun _ => [])
    (fun _ => .ok ())
    { source_conn := "A3", target_conn := "B3", tables_list := [],
      validation_type := "Column", count := none, sum := none, grouped_columns := [],
      result_handler_config := none, config_file := some "out.yaml",
      verbose := false } "out.yaml" rfl rfl
